import Mathlib

/-!
Verification of the lootamo-website order-fulfillment backend.

This file gives a shallow embedding of the data model and of the
operations of the Python backend (`app/models/*.py`, `app/services/*.py`)
and proves or refutes the testable properties stated for them.
Statuses are modelled as the raw strings the services assign
(the services use string literals such as "pending_key" that are not
members of the `OrderItemStatus` enum), times as integers (seconds).
-/

namespace Lootamo

/-- Record mirroring the `orders` table of `app/models/order.py`
(`Order`): only the columns the verified operations read or write. -/
structure Order where
  id : Nat
  userId : Nat
  /-- Column `status`, default "pending" (`OrderStatus` values). -/
  status : String := "pending"
  /-- Column `payment_status`, default "pending" (`PaymentStatus` values). -/
  paymentStatus : String := "pending"
  stripePaymentIntentId : Option String := none
  /-- Legacy single-item fields. -/
  g2aOrderId : Option String := none
  g2aTransactionId : Option String := none
  deliveredKey : Option String := none
  /-- Column `created_at`, as seconds on an integer timeline. -/
  createdAt : Int := 0
deriving DecidableEq, Repr

/-- Record mirroring the `order_items` table of `app/models/order_item.py`. -/
structure OrderItem where
  id : Nat
  orderId : Nat
  productId : String
  g2aOrderId : Option String := none
  g2aTransactionId : Option String := none
  deliveredKey : Option String := none
  status : String := "pending"
deriving DecidableEq, Repr

/-- Record mirroring the `retry_logs` table of `app/models/retry_log.py`. -/
structure RetryLog where
  id : Nat
  orderId : Option Nat := none
  orderItemId : Option Nat := none
  g2aOrderId : Option String := none
  retryType : String
  attemptNumber : Nat := 1
  maxAttempts : Nat := 5
  status : String
  errorCode : Option String := none
  errorMessage : Option String := none
deriving DecidableEq, Repr

/-- Record mirroring the `email_queue` table of `app/models/email_queue.py`:
`order_id` is a plain `String` column (no foreign key, no relationship). -/
structure EmailQueue where
  id : Nat
  toEmail : String
  subject : String
  status : String := "pending"
  priority : Nat := 1
  attempts : Nat := 0
  maxRetries : Nat := 3
  emailType : Option String := none
  orderId : Option String := none
deriving DecidableEq, Repr

/-- Record mirroring the `error_logs` table of `app/models/error_log.py`. -/
structure ErrorLog where
  id : Nat
  errorType : String
  errorMessage : String
  severity : String := "error"
  sourceSystem : Option String := none
  sourceFunction : Option String := none
  errorCode : Option String := none
  duplicateHash : String
  duplicateCount : Nat := 1
  firstOccurrence : Int
  lastOccurrence : Int
  isQuarantined : Bool := false
  requiresManualReview : Bool := false
  isResolved : Bool := false
deriving DecidableEq, Repr

/-! ### Order status recompute
`PaymentService._update_order_status_if_all_items_complete`
(`app/services/payment_service.py`). The source refreshes the order,
returns unchanged when the order has no items, computes
`all_complete = all(item.status == "complete" for item in order.order_items)`,
promotes to "complete" when all items are complete and demotes a
"complete" order to "paid" when some item is not complete. -/

/-- Pure recompute of `order.status` performed by
`_update_order_status_if_all_items_complete`, as a function of the
current status and the statuses of the order items. -/
def updateOrderStatusIfAllItemsComplete (status : String)
    (itemStatuses : List String) : String :=
  if itemStatuses = [] then status
  else
    let allComplete := itemStatuses.all (fun s => s = "complete")
    if allComplete ∧ status ≠ "complete" then "complete"
    else if ¬allComplete ∧ status = "complete" then "paid"
    else status

/-! ### Expiry sweep
`OrderService.expire_pending_orders` (`app/services/order_service.py`):
`expiry_cutoff = now - 24h`; every order with `status == "pending"` and
`created_at < expiry_cutoff` gets `status = "expired"`; the sweep touches
nothing else. -/

/-- Number of seconds in the 24-hour pending-order expiry window
(`PENDING_ORDER_EXPIRY_HOURS = 24`). -/
def pendingOrderExpirySeconds : Int := 24 * 3600

/-- Selection predicate of the expiry sweep: `status == "pending"` and
`created_at < now - 24h`. -/
def isExpirablePending (now : Int) (o : Order) : Bool :=
  o.status = "pending" ∧ o.createdAt < now - pendingOrderExpirySeconds

/-- One run of `OrderService.expire_pending_orders` over the orders table:
each selected order has its status set to "expired"; all other orders are
returned unchanged. -/
def expirePendingOrders (now : Int) (orders : List Order) : List Order :=
  orders.map (fun o =>
    if isExpirablePending now o then { o with status := "expired" } else o)

/-! ### Order lookup by id
`OrderService.get_order_by_id` (`app/services/order_service.py`): the
string argument is parsed with Python `int(...)`; `ValueError` or
`OverflowError` yields `None`; a parsed id above `2147483647` yields
`None`; otherwise the order with that id is looked up. -/

/-- Continuation of the digit grammar of Python `int`: further digits,
possibly separated by single underscores; a trailing or doubled
underscore fails. -/
def pyDigitsAux : Nat → List Char → Option Nat
  | acc, [] => some acc
  | acc, '_' :: d :: rest =>
    if d.isDigit then pyDigitsAux (acc * 10 + (d.toNat - 48)) rest else none
  | _, ['_'] => none
  | acc, d :: rest =>
    if d.isDigit then pyDigitsAux (acc * 10 + (d.toNat - 48)) rest else none

/-- Digit run of Python `int`: one leading ASCII digit then
`pyDigitsAux`. -/
def pyDigits : List Char → Option Nat
  | [] => none
  | d :: rest => if d.isDigit then pyDigitsAux (d.toNat - 48) rest else none

/-- Strip leading and trailing whitespace from a character list. -/
def pyStrip (l : List Char) : List Char :=
  ((l.dropWhile Char.isWhitespace).reverse.dropWhile Char.isWhitespace).reverse

/-- Model of Python `int(s)` for decimal strings: surrounding whitespace
is stripped; an optional sign precedes a run of ASCII digits possibly
separated by single underscores; every other string raises `ValueError`,
modelled as `none` (non-ASCII digit characters are out of scope of the
model and also map to `none`). -/
def pyIntOfString (s : String) : Option Int :=
  match pyStrip s.toList with
  | '-' :: rest => (pyDigits rest).map (fun n => -(n : Int))
  | '+' :: rest => (pyDigits rest).map (fun n => (n : Int))
  | l => (pyDigits l).map (fun n => (n : Int))

/-- Upper bound `2147483647` (PostgreSQL INTEGER limit) used by
`get_order_by_id`. -/
def pgIntegerLimit : Int := 2147483647

/-- Model of `OrderService.get_order_by_id`: parse the id string; on a
parse failure return `none`; on an id above the limit return `none`;
otherwise return the first order with that id. -/
def get_order_by_id (orders : List Order) (orderId : String) : Option Order :=
  match pyIntOfString orderId with
  | none => none
  | some n =>
    if n > pgIntegerLimit then none
    else orders.find? (fun o => (o.id : Int) = n)

/-! ### Error log with duplicate collapsing
`ErrorLogService.log_error` (`app/services/error_log_service.py`): a
duplicate hash is computed over `(error_type, error_message,
source_system, source_function, error_code)`; an existing row with the
same hash and `is_resolved == False` gets `duplicate_count += 1` and a
bumped `last_occurrence`; otherwise a fresh row is inserted with
`duplicate_count = 1` and `is_quarantined = (severity == "critical")`. -/

/-- Arguments of a `log_error` call that enter the duplicate hash. -/
structure ErrorKey where
  errorType : String
  errorMessage : String
  sourceSystem : Option String := none
  sourceFunction : Option String := none
  errorCode : Option String := none
deriving DecidableEq, Repr

/-- Duplicate hash of `log_error`: SHA-256 of the sorted JSON of the key
fields, modelled as the injective encoding of the key fields themselves. -/
def duplicateHashOf (k : ErrorKey) : String :=
  k.errorType ++ "|" ++ k.errorMessage ++ "|"
    ++ (k.sourceSystem.getD "null") ++ "|"
    ++ (k.sourceFunction.getD "null") ++ "|"
    ++ (k.errorCode.getD "null")

/-- One call of `ErrorLogService.log_error` over the error-log table:
find the first unresolved row with the same duplicate hash; bump it if
present, otherwise append a new row. `now` stands for `func.now()`. -/
def logError (logs : List ErrorLog) (k : ErrorKey) (severity : String)
    (requiresManualReview : Bool) (now : Int) : List ErrorLog :=
  let h := duplicateHashOf k
  if (logs.find? (fun e => e.duplicateHash = h ∧ e.isResolved = false)).isSome then
    logs.map (fun e =>
      if e.duplicateHash = h ∧ e.isResolved = false then
        { e with duplicateCount := e.duplicateCount + 1, lastOccurrence := now }
      else e)
  else
    logs ++ [{ id := logs.length + 1
               errorType := k.errorType
               errorMessage := k.errorMessage
               severity := severity
               sourceSystem := k.sourceSystem
               sourceFunction := k.sourceFunction
               errorCode := k.errorCode
               duplicateHash := h
               duplicateCount := 1
               firstOccurrence := now
               lastOccurrence := now
               isQuarantined := severity = "critical"
               requiresManualReview := requiresManualReview }]

/-- Iterate `logError` with the same key at increasing timestamps
`t+1, t+2, ..., t+n` (the i-th call occurs at time `t+i`). -/
def logErrorRepeat (logs : List ErrorLog) (k : ErrorKey) (severity : String)
    (t : Int) : Nat → List ErrorLog
  | 0 => logs
  | n + 1 => logError (logErrorRepeat logs k severity t n) k severity false (t + (n + 1))

/-! ### Email enqueue
`SimpleEmailQueueService.queue_email` (`app/services/simple_email_queue.py`)
and `EmailQueueService.queue_email` (`app/services/email_queue_service.py`):
both unconditionally INSERT a new row with `status = "pending"` and
`attempts = 0`; neither consults existing rows. -/

/-- One call of `queue_email`: a fresh pending row is appended to the
`email_queue` table. Both queue services perform exactly this insert. -/
def queueEmail (q : List EmailQueue) (toEmail subject : String)
    (emailType : Option String) (orderId : Option String)
    (priority : Nat) (maxRetries : Nat) : List EmailQueue :=
  q ++ [{ id := q.length + 1
          toEmail := toEmail
          subject := subject
          status := "pending"
          priority := priority
          attempts := 0
          maxRetries := maxRetries
          emailType := emailType
          orderId := orderId }]

/-- Dedup key of the specification: `(email_type, correlation_id,
recipient)`. -/
def emailDedupKeyMatches (e : EmailQueue) (emailType : Option String)
    (orderId : Option String) (toEmail : String) : Bool :=
  e.emailType = emailType ∧ e.orderId = orderId ∧ e.toEmail = toEmail

/-- Number of pending rows of the queue sharing a dedup key. -/
def pendingRowsForKey (q : List EmailQueue) (emailType : Option String)
    (orderId : Option String) (toEmail : String) : Nat :=
  (q.filter (fun e =>
    e.status = "pending" ∧ emailDedupKeyMatches e emailType orderId toEmail)).length

/-! ### Cascade deletion
Relationship declarations of the models: `Order.order_items` and
`Order.retry_logs` both carry `cascade="all, delete-orphan"`
(`app/models/order.py`), `OrderItem.retry_logs` likewise
(`app/models/order_item.py`); `EmailQueue.order_id` is a plain string
column with no foreign key and no relationship
(`app/models/email_queue.py`). Deleting an `Order` therefore deletes its
`OrderItem` rows and every `RetryLog` row reachable through either
relationship, and touches no `email_queue` row. -/

/-- Snapshot of the persisted tables involved in order deletion. -/
structure Database where
  orders : List Order
  orderItems : List OrderItem
  retryLogs : List RetryLog
  emailQueue : List EmailQueue
deriving DecidableEq, Repr

/-- Predicate: a retry log is cascade-deleted with order `oid` because it
references the order directly (`Order.retry_logs`) or references one of
the order's items (`OrderItem.retry_logs`). -/
def retryLogCascades (db : Database) (oid : Nat) (r : RetryLog) : Bool :=
  r.orderId = some oid ∨
    (db.orderItems.filter (fun it => it.orderId = oid)).any
      (fun it => r.orderItemId = some it.id)

/-- Deletion of an order under the declared SQLAlchemy cascades: the
order, its items and the retry logs referencing the order or its items
disappear; the email queue is untouched. -/
def deleteOrder (db : Database) (oid : Nat) : Database :=
  { orders := db.orders.filter (fun o => o.id ≠ oid)
    orderItems := db.orderItems.filter (fun it => it.orderId ≠ oid)
    retryLogs := db.retryLogs.filter (fun r => ¬ retryLogCascades db oid r)
    emailQueue := db.emailQueue }

/-! ### Provider adapter responses
`get_g2a_order_key` (`app/services/g2a_service.py`) returns either `None`
or a dict that may contain `keys` (a list of key objects), `key` (a
single key string) and `error` (a provider or adapter code such as
"ORD03", "ORD01", "ORD04", "API_UNAVAILABLE", "API_ERROR",
"UNKNOWN_RESPONSE", "HTTP_402"). The dict shape is modelled with one
optional field per JSON field; `none` for a field means the field is
absent from the dict. -/

/-- Shape of a key-fetch response dict. -/
structure KeyResponse where
  keys : Option (List String) := none
  key : Option String := none
  error : Option String := none
deriving DecidableEq, Repr

/-- Python truthiness of an optional string field (`None` and `""` are
falsy). -/
def truthyStr : Option String → Bool
  | some s => s ≠ ""
  | none => false

/-- Key extraction of `_process_multi_item_g2a_flow`:
`if "keys" in kr and kr["keys"]: keys[0]["key"] elif "key" in kr and
kr["key"]: kr["key"]` (both branches use truthiness). -/
def extractKeyWebhook : Option KeyResponse → Option String
  | none => none
  | some kr =>
    match kr.keys with
    | some (k :: _) => some k
    | _ =>
      match kr.key with
      | some k => if k = "" then none else some k
      | none => none

/-- External provider calls, in the order they are issued. -/
inductive ProviderCall
  | createOrder (productId : String)
  | payOrder (g2aOrderId : String)
  | fetchKey (g2aOrderId : String)
deriving DecidableEq, Repr

/-- Scripted provider responses, consumed front-to-back per call type:
`createResponses` yield the `order_id` of `create_g2a_order` (absent on
failure), `payResponses` the `transaction_id` of `pay_g2a_order`,
`keyResponses` the dicts of `get_g2a_order_key`. -/
structure ProviderScript where
  createResponses : List (Option String) := []
  payResponses : List (Option String) := []
  keyResponses : List (Option KeyResponse) := []
deriving DecidableEq, Repr

/-- State threaded through the payment-success flow: the order under
processing, the `order_items` table, the `email_queue` table, the email
address of the order's user (absent when the user row or its email is
missing), the sequence of values assigned to `order.status`, the
external calls issued so far and the remaining provider script. -/
structure FlowState where
  order : Order
  items : List OrderItem
  emails : List EmailQueue := []
  userEmail : Option String := none
  statusAssignments : List String := []
  calls : List ProviderCall := []
  script : ProviderScript := {}
deriving DecidableEq, Repr

/-- Items of the processed order (`order.order_items`). -/
def FlowState.orderItems (st : FlowState) : List OrderItem :=
  st.items.filter (fun it => it.orderId = st.order.id)

/-- Write back a mutated item row (`db.commit()` on the item). -/
def FlowState.setItem (st : FlowState) (it : OrderItem) : FlowState :=
  { st with items := st.items.map (fun j => if j.id = it.id then it else j) }

/-- Assignment `order.status = s`, recorded in execution order. -/
def FlowState.setOrderStatus (st : FlowState) (s : String) : FlowState :=
  { st with order := { st.order with status := s }
            statusAssignments := st.statusAssignments ++ [s] }

/-- Issue a `create_g2a_order` call and consume its scripted response. -/
def FlowState.popCreate (st : FlowState) (pid : String) :
    Option String × FlowState :=
  match st.script.createResponses with
  | [] => (none, { st with calls := st.calls ++ [.createOrder pid] })
  | r :: rest =>
    (r, { st with calls := st.calls ++ [.createOrder pid]
                  script := { st.script with createResponses := rest } })

/-- Issue a `pay_g2a_order` call and consume its scripted response. -/
def FlowState.popPay (st : FlowState) (gid : String) :
    Option String × FlowState :=
  match st.script.payResponses with
  | [] => (none, { st with calls := st.calls ++ [.payOrder gid] })
  | r :: rest =>
    (r, { st with calls := st.calls ++ [.payOrder gid]
                  script := { st.script with payResponses := rest } })

/-- Issue a `get_g2a_order_key` call and consume its scripted response. -/
def FlowState.popKey (st : FlowState) (gid : String) :
    Option KeyResponse × FlowState :=
  match st.script.keyResponses with
  | [] => (none, { st with calls := st.calls ++ [.fetchKey gid] })
  | r :: rest =>
    (r, { st with calls := st.calls ++ [.fetchKey gid]
                  script := { st.script with keyResponses := rest } })

/-- In-flow invocation of
`PaymentService._update_order_status_if_all_items_complete`: it returns
unchanged when the order has no items; it assigns "complete" when all
items are complete and the status differs; it assigns "paid" when some
item is not complete and the status is "complete". -/
def recomputeOrderStatus (st : FlowState) : FlowState :=
  let sts := st.orderItems.map (fun it => it.status)
  if sts = [] then st
  else
    let allComplete := sts.all (fun s => s = "complete")
    if allComplete ∧ st.order.status ≠ "complete" then
      st.setOrderStatus "complete"
    else if ¬allComplete ∧ st.order.status = "complete" then
      st.setOrderStatus "paid"
    else st

/-- Branch of `_process_multi_item_g2a_flow` taken when the key fetch
returned a dict with an `error` field and no extractable key. The
"ORD04" case re-reads `key_response["key"]` with truthiness; when absent
it issues exactly one fresh `get_g2a_order_key` call and stores its
`key` field when present in the dict (no truthiness check on the fresh
value), otherwise the sentinel "KEY_ALREADY_DELIVERED_ORD04"; the item
then becomes "complete" and the order status is recomputed. -/
def handleWebhookKeyError (st : FlowState) (item : OrderItem)
    (kr : KeyResponse) (ec : String) : FlowState :=
  if ec = "ORD03" then st.setItem { item with status := "pending_key" }
  else if ec = "ORD01" then st.setItem { item with status := "failed" }
  else if ec = "ORD04" then
    let actualKey : Option String :=
      match kr.key with
      | some k => if k = "" then none else some k
      | none => none
    match actualKey with
    | some k =>
      let it := { item with deliveredKey := some k, status := "complete" }
      recomputeOrderStatus (st.setItem it)
    | none =>
      let (fresh, st2) := st.popKey (item.g2aOrderId.getD "")
      let newKey : Option String :=
        match fresh with
        | some fr => fr.key
        | none => none
      let it := { item with
                  deliveredKey := some (newKey.getD "KEY_ALREADY_DELIVERED_ORD04")
                  status := "complete" }
      recomputeOrderStatus (st2.setItem it)
  else if ec = "API_UNAVAILABLE" ∨ ec = "API_ERROR" ∨ ec = "UNKNOWN_RESPONSE" then
    st.setItem { item with status := "pending_key" }
  else
    st.setItem { item with status := "key_error" }

/-- Body of the per-item loop of
`PaymentService._process_multi_item_g2a_flow`: create the provider order
when `g2a_order_id` is missing (failure marks the item "failed" and
continues with the next item), pay when `g2a_transaction_id` is missing,
then fetch the key when the item has a provider order, no delivered key
and is not complete; an item that enters the key stage already satisfied
falls into the loop's final `else` and is marked "failed". -/
def processItemWebhook (st0 : FlowState) (itemId : Nat) : FlowState :=
  match st0.items.find? (fun it => it.id = itemId) with
  | none => st0
  | some item0 =>
    let step1 : OrderItem × FlowState × Bool :=
      if truthyStr item0.g2aOrderId then (item0, st0, false)
      else
        let (resp, st) := st0.popCreate item0.productId
        match resp with
        | some oid =>
          let it := { item0 with g2aOrderId := some oid, status := "processing" }
          (it, st.setItem it, false)
        | none =>
          let it := { item0 with status := "failed" }
          (it, st.setItem it, true)
    match step1 with
    | (item1, st1, aborted) =>
      if aborted then st1
      else
        let step2 : OrderItem × FlowState :=
          if truthyStr item1.g2aOrderId ∧ ¬ truthyStr item1.g2aTransactionId then
            let (resp, st) := st1.popPay (item1.g2aOrderId.getD "")
            match resp with
            | some tid =>
              let it := { item1 with g2aTransactionId := some tid }
              (it, st.setItem it)
            | none => (item1, st)
          else (item1, st1)
        match step2 with
        | (item2, st2) =>
          if truthyStr item2.g2aOrderId ∧ ¬ truthyStr item2.deliveredKey
              ∧ item2.status ≠ "complete" then
            let (resp, st3) := st2.popKey (item2.g2aOrderId.getD "")
            match extractKeyWebhook resp with
            | some k =>
              let it := { item2 with deliveredKey := some k, status := "complete" }
              recomputeOrderStatus (st3.setItem it)
            | none =>
              match resp with
              | some kr =>
                match kr.error with
                | some ec => handleWebhookKeyError st3 item2 kr ec
                | none => st3.setItem { item2 with status := "key_error" }
              | none => st3.setItem { item2 with status := "key_error" }
          else
            st2.setItem { item2 with status := "failed" }

/-- The loop of `_process_multi_item_g2a_flow` over the order's items. -/
def processMultiItemG2AFlow (st : FlowState) : FlowState :=
  (st.orderItems.map (fun it => it.id)).foldl processItemWebhook st

/-- Model of `PaymentService._send_order_email_notification`: resolve the
user's email; collect the items with a (truthy) delivered key; when
non-empty, queue exactly one email — type "license_key" for a single
key, type "multi_license_key" otherwise — with `order_id = str(order.id)`
and priority 1. -/
def sendOrderEmailNotification (st : FlowState) : FlowState :=
  match st.userEmail with
  | none => st
  | some addr =>
    let itemsWithKeys := st.orderItems.filter (fun it => truthyStr it.deliveredKey)
    match itemsWithKeys with
    | [] => st
    | [it] =>
      let subj := "Your License Key for " ++ it.productId ++ " - Order #"
        ++ toString st.order.id
      let q := queueEmail st.emails addr subj (some "license_key")
        (some (toString st.order.id)) 1 3
      { st with emails := q }
    | _ =>
      let subj := "Your License Keys - Order #" ++ toString st.order.id
      let q := queueEmail st.emails addr subj (some "multi_license_key")
        (some (toString st.order.id)) 1 3
      { st with emails := q }

/-- Model of `PaymentService.handle_payment_success` for an order with
items. The source (a) computes `skip_g2a_processing`: when the order is
already paid and no item needs provider work, G2A processing is skipped;
(b) unconditionally assigns `payment_status = "paid"` and
`status = "paid"`; (c) runs `_process_multi_item_g2a_flow` unless
skipped (the legacy no-items branch `_process_g2a_payment_flow` is
outside the verified claims and left as the identity); (d) queues the
notification only when no `email_queue` row with `order_id =
str(order.id)` exists. Returns the final state and the boolean result. -/
def handlePaymentSuccess (st0 : FlowState) (orderId : Nat) :
    FlowState × Bool :=
  if st0.order.id ≠ orderId then (st0, false)
  else
    let itemsO := st0.orderItems
    let skip : Bool :=
      if st0.order.paymentStatus = "paid" then
        let needs : Bool :=
          if itemsO ≠ [] then
            itemsO.any (fun it =>
              (¬ truthyStr it.g2aOrderId ∧ it.status ≠ "complete") ∨
              (truthyStr it.g2aOrderId ∧ ¬ truthyStr it.deliveredKey
                ∧ it.status ≠ "complete"))
          else truthyStr st0.order.g2aOrderId ∧ ¬ truthyStr st0.order.deliveredKey
        ¬ needs
      else false
    let st1 := { st0 with order := { st0.order with paymentStatus := "paid" } }
    let st2 := st1.setOrderStatus "paid"
    let st3 :=
      if ¬ skip then
        if st2.orderItems ≠ [] then processMultiItemG2AFlow st2 else st2
      else st2
    let emailCheck :=
      (st3.emails.filter (fun e => e.orderId = some (toString st3.order.id))).length
    let st4 := if emailCheck = 0 then sendOrderEmailNotification st3 else st3
    (st4, true)

/-- Count of transitions of `order.status` INTO "paid" along the recorded
assignment sequence, starting from the given initial status: an
assignment of "paid" counts when the previous value was not "paid". -/
def countPaidEntries : String → List String → Nat
  | _, [] => 0
  | prev, s :: rest =>
    (if s = "paid" ∧ prev ≠ "paid" then 1 else 0) + countPaidEntries s rest

/-! ### On-demand multi-item key retrieval
`PaymentService.get_multi_item_license_keys`
(`app/services/payment_service.py`): for each item without a delivered
key but with a provider order, an inline loop of up to `max_retries = 3`
key-fetch attempts runs; a key found marks the item complete and commits
— without recomputing the order status; an "ORD04" outcome stores the
sentinel "KEY_ALREADY_DELIVERED_ORD04" directly, with no fresh re-query;
an "HTTP_402" outcome marks the item "key_error"; everything else leaves
the item for later. One consolidated email is sent when at least one key
is ready. -/

/-- Inner fetch loop of `get_multi_item_license_keys`, recursing on the
remaining attempts (3 at entry). Branches in source order: a non-empty
`keys` list breaks with its first key; a `key` field with `keys` absent
breaks with the raw value (truthiness is applied only after the loop); an
"ORD03" error with attempts left continues; any other error breaks; a
falsy or unclassified response continues when attempts are left and
breaks on the last attempt. Returns the raw `license_key`, the last
`key_response` and the updated state. -/
def onDemandKeyLoop (gid : String) :
    Nat → FlowState → Option String × Option KeyResponse × FlowState
  | 0, st => (none, none, st)
  | remaining + 1, st =>
    let (resp, st1) := st.popKey gid
    match resp with
    | some kr =>
      match kr.keys with
      | some (k :: _) => (some k, some kr, st1)
      | some [] =>
        match kr.error with
        | some ec =>
          if ec = "ORD03" ∧ remaining > 0 then onDemandKeyLoop gid remaining st1
          else (none, some kr, st1)
        | none =>
          if remaining > 0 then onDemandKeyLoop gid remaining st1
          else (none, some kr, st1)
      | none =>
        match kr.key with
        | some k => (some k, some kr, st1)
        | none =>
          match kr.error with
          | some ec =>
            if ec = "ORD03" ∧ remaining > 0 then onDemandKeyLoop gid remaining st1
            else (none, some kr, st1)
          | none =>
            if remaining > 0 then onDemandKeyLoop gid remaining st1
            else (none, some kr, st1)
    | none =>
      if remaining > 0 then onDemandKeyLoop gid remaining st1
      else (none, none, st1)

/-- Accumulator of the per-item loop of `get_multi_item_license_keys`:
the mutated state plus the lengths of the `license_keys` and
`keys_not_ready` lists. -/
structure OnDemandAcc where
  st : FlowState
  readyCount : Nat := 0
  notReadyCount : Nat := 0
deriving Repr

/-- Post-loop `else` branch of the per-item body of
`get_multi_item_license_keys`: classify the saved `key_response` when no
truthy key was obtained — "ORD04" stores the sentinel and reports ready,
"HTTP_402" marks the item "key_error", anything else only reports not
ready. -/
def onDemandAfterLoopNoKey (acc : OnDemandAcc) (st1 : FlowState)
    (item : OrderItem) (keyResponse : Option KeyResponse) : OnDemandAcc :=
  match keyResponse with
  | some kr =>
    if kr.error = some "ORD04" then
      let it := { item with
                  deliveredKey := some "KEY_ALREADY_DELIVERED_ORD04"
                  status := "complete" }
      { acc with st := st1.setItem it, readyCount := acc.readyCount + 1 }
    else if kr.error = some "HTTP_402" then
      let it := { item with status := "key_error" }
      { acc with st := st1.setItem it, notReadyCount := acc.notReadyCount + 1 }
    else
      { acc with st := st1, notReadyCount := acc.notReadyCount + 1 }
  | none => { acc with st := st1, notReadyCount := acc.notReadyCount + 1 }

/-- Per-item body of `get_multi_item_license_keys`: an item with a truthy
delivered key is reported ready; an item with a provider order runs the
fetch loop — a truthy key marks it complete (no order-status recompute),
an "ORD04" result stores the sentinel and reports ready, an "HTTP_402"
result marks it "key_error"; all remaining cases, and items without a
provider order, are reported not ready. -/
def onDemandProcessItem (acc : OnDemandAcc) (itemId : Nat) : OnDemandAcc :=
  match acc.st.items.find? (fun it => it.id = itemId) with
  | none => acc
  | some item =>
    if truthyStr item.deliveredKey then
      { acc with readyCount := acc.readyCount + 1 }
    else if truthyStr item.g2aOrderId then
      match onDemandKeyLoop (item.g2aOrderId.getD "") 3 acc.st with
      | (licenseKey, keyResponse, st1) =>
        match licenseKey with
        | some k =>
          if k ≠ "" then
            let it := { item with deliveredKey := some k, status := "complete" }
            { acc with st := st1.setItem it, readyCount := acc.readyCount + 1 }
          else
            onDemandAfterLoopNoKey acc st1 item keyResponse
        | none => onDemandAfterLoopNoKey acc st1 item keyResponse
    else
      { acc with notReadyCount := acc.notReadyCount + 1 }

/-- Model of `PaymentService.get_multi_item_license_keys`: an unpaid
order returns unchanged; otherwise every item is processed and one
consolidated email is queued via `_send_order_email_notification` when
at least one key is ready. -/
def getMultiItemLicenseKeys (st : FlowState) : FlowState :=
  if st.order.paymentStatus ≠ "paid" then st
  else
    let acc := (st.orderItems.map (fun it => it.id)).foldl
      onDemandProcessItem { st := st }
    if acc.readyCount > 0 then sendOrderEmailNotification acc.st else acc.st

/-! ### Per-item key-retrieval retry loop
`G2ARetryService.retry_license_key_retrieval_for_item`
(`app/services/g2a_retry_service.py`, default `max_retries = 5`). The
`retry_log` local is created at most once, under the guard
`if not retry_log:` — so a single RetryLog row records the whole run,
with `attempt_number = 1`. A retrieved truthy key marks the item
complete and the row "success". The error-classification block of the
loop body is syntactically invalid in the source (a stray `else` after
the inner `try` at line 332 and a reference to an unbound `error_code`);
per the sibling function `retry_license_key_retrieval` and the retry
docstrings, a not-ready response is modelled as proceeding to the next
attempt. After exhaustion the single row is updated to "failed" with
code "MAX_RETRIES_EXCEEDED" and the item becomes "failed". -/

/-- State threaded through one run of
`retry_license_key_retrieval_for_item`. -/
structure ItemRetryState where
  item : OrderItem
  retryLogs : List RetryLog
  /-- Mirrors the `retry_log` local: id of the created row, when any. -/
  retryLogId : Option Nat := none
  script : List (Option KeyResponse) := []
  fetchCalls : Nat := 0
deriving DecidableEq, Repr

/-- Consume the next scripted key-fetch response. -/
def ItemRetryState.popKey (st : ItemRetryState) :
    Option KeyResponse × ItemRetryState :=
  match st.script with
  | [] => (none, { st with fetchCalls := st.fetchCalls + 1 })
  | r :: rest => (r, { st with script := rest, fetchCalls := st.fetchCalls + 1 })

/-- The `RetryLogService.log_license_key_retry_start` insert: one row
with `retry_type = "license_key"`, status "pending". -/
def ItemRetryState.createLog (st : ItemRetryState) (attemptNumber maxAttempts : Nat) :
    ItemRetryState :=
  let rid := st.retryLogs.length + 1
  { st with
    retryLogs := st.retryLogs ++
      [{ id := rid
         orderItemId := some st.item.id
         g2aOrderId := st.item.g2aOrderId
         retryType := "license_key"
         attemptNumber := attemptNumber
         maxAttempts := maxAttempts
         status := "pending" }]
    retryLogId := some rid }

/-- The `RetryLogService.log_license_key_retry_result` update on the row
named by the `retry_log` local. -/
def ItemRetryState.logResult (st : ItemRetryState) (success : Bool)
    (errorCode : Option String) : ItemRetryState :=
  match st.retryLogId with
  | none => st
  | some rid =>
    { st with retryLogs := st.retryLogs.map (fun r =>
        if r.id = rid then
          { r with status := if success then "success" else "failed"
                   errorCode := errorCode }
        else r) }

/-- Key extraction of the retry loop: a non-empty `keys` list yields its
first key; otherwise a `key` field with `keys` absent yields its raw
value (truthiness applies afterwards via `if license_key:`). -/
def extractKeyRetry : Option KeyResponse → Option String
  | none => none
  | some kr =>
    match kr.keys with
    | some (k :: _) => some k
    | some [] => none
    | none => kr.key

/-- The attempt loop of `retry_license_key_retrieval_for_item`, recursing
on remaining attempts: ensure the single log row exists, fetch, and on a
truthy key complete the item and mark the row "success"; otherwise move
to the next attempt. When attempts are exhausted the row is updated to
"failed"/"MAX_RETRIES_EXCEEDED" and the item is marked "failed". -/
def retryItemAttempts (maxRetries : Nat) :
    Nat → ItemRetryState → ItemRetryState × Bool
  | 0, st =>
    let st1 := st.logResult false (some "MAX_RETRIES_EXCEEDED")
    let st2 := { st1 with item := { st1.item with status := "failed" } }
    (st2, false)
  | remaining + 1, st =>
    let attemptNumber := maxRetries - remaining
    let st1 := if st.retryLogId.isSome then st
               else st.createLog attemptNumber maxRetries
    let (resp, st2) := st1.popKey
    match extractKeyRetry resp with
    | some k =>
      if k ≠ "" then
        let it := { st2.item with deliveredKey := some k, status := "complete" }
        let st3 := { st2 with item := it }
        (st3.logResult true none, true)
      else retryItemAttempts maxRetries remaining st2
    | none => retryItemAttempts maxRetries remaining st2

/-- One run of `retry_license_key_retrieval_for_item` with the default
`max_retries = 5`. -/
def retryLicenseKeyRetrievalForItem (st : ItemRetryState)
    (maxRetries : Nat := 5) : ItemRetryState × Bool :=
  retryItemAttempts maxRetries maxRetries st

/-! ### Scenario states used by the counterexamples and witnesses -/

/-- Concrete database used to exhibit the retry-log cascade. -/
def c9db : Database :=
  { orders := [{ id := 1, userId := 1, status := "paid", paymentStatus := "paid" }]
    orderItems := [{ id := 10, orderId := 1, productId := "P" }]
    retryLogs := [{ id := 1, orderId := some 1
                    retryType := "license_key", status := "failed" },
                  { id := 2, orderItemId := some 10
                    retryType := "license_key", status := "success" }]
    emailQueue := [{ id := 1, toEmail := "u@x", subject := "s"
                     orderId := some "1" }] }

/-- Order of the on-demand mutation scenario. -/
def c1Order : Order := { id := 1, userId := 1, status := "paid", paymentStatus := "paid" }

/-- Item of the on-demand mutation scenario: provider order created, key
still missing. -/
def c1Item : OrderItem :=
  { id := 10, orderId := 1, productId := "P1"
    g2aOrderId := some "G1", status := "pending_key" }

/-- Start state of the on-demand mutation scenario: the next key fetch
succeeds. -/
def c1Start : FlowState :=
  { order := c1Order, items := [c1Item], userEmail := some "user@example.com"
    script := { keyResponses := [some { keys := some ["KEY-1"] }] } }

/-- Order of the webhook-replay scenario. -/
def c2Order : Order := { id := 2, userId := 1 }

/-- Item of the webhook-replay scenario, initially untouched. -/
def c2Item : OrderItem := { id := 20, orderId := 2, productId := "P2" }

/-- Start state of the webhook-replay scenario: the provider will create,
pay and deliver the key on the first pass. -/
def c2Start : FlowState :=
  { order := c2Order, items := [c2Item], userEmail := some "buyer@example.com"
    script := { createResponses := [some "G2"], payResponses := [some "T2"]
                keyResponses := [some { key := some "KEY-2" }] } }

/-- State after the first processing of the succeeded event. -/
def c2Run1 : FlowState := (handlePaymentSuccess c2Start 2).1

/-- State after replaying the same succeeded event. -/
def c2Run2 : FlowState := (handlePaymentSuccess c2Run1 2).1

/-- Start state of the retry-exhaustion scenario: five scripted
not-ready ("ORD03") responses. -/
def c3Start : ItemRetryState :=
  { item := { id := 7, orderId := 3, productId := "P3"
              g2aOrderId := some "G3", status := "pending_key" }
    retryLogs := []
    script := List.replicate 5 (some { error := some "ORD03" }) }

/-- Item of the unknown-error-code scenario: provider order and payment
already checkpointed, key missing. -/
def c4Item : OrderItem :=
  { id := 40, orderId := 4, productId := "P4"
    g2aOrderId := some "G4", g2aTransactionId := some "T4"
    status := "processing" }

/-- Start state of the unknown-error-code scenario: the key fetch
returns an unclassified code. -/
def c4Start : FlowState :=
  { order := { id := 4, userId := 1, status := "paid", paymentStatus := "paid" }
    items := [c4Item]
    script := { keyResponses := [some { error := some "E999" }] } }

/-- Item of the on-demand ORD04 scenario. -/
def c5Item : OrderItem :=
  { id := 50, orderId := 5, productId := "P5"
    g2aOrderId := some "G5", status := "pending_key" }

/-- Start state of the on-demand ORD04 scenario: the single fetch
returns "ORD04" with no key payload. -/
def c5Start : FlowState :=
  { order := { id := 5, userId := 1, status := "paid", paymentStatus := "paid" }
    items := [c5Item], userEmail := some "u5@example.com"
    script := { keyResponses := [some { error := some "ORD04" }] } }

/-! ## Theorems -/

/-- Selection of the sweep agrees with the specification phrasing: an
order is rewritten exactly when it is pending and was created more than
24 hours before the sweep time. -/
theorem expireOne_eq (now : Int) (o : Order) :
    (if isExpirablePending now o then { o with status := "expired" } else o)
      = (if o.status = "pending" ∧ now - o.createdAt > 24 * 3600 then
          { o with status := "expired" } else o) := by
  have h : (isExpirablePending now o = true)
      ↔ (o.status = "pending" ∧ now - o.createdAt > 24 * 3600) := by
    unfold isExpirablePending pendingOrderExpirySeconds
    constructor
    · intro hb
      have hb' := of_decide_eq_true hb
      exact ⟨hb'.1, by omega⟩
    · rintro ⟨h1, h2⟩
      exact decide_eq_true ⟨h1, by omega⟩
  by_cases hc : isExpirablePending now o = true
  · rw [if_pos hc, if_pos (h.mp hc)]
  · rw [if_neg hc, if_neg (fun hx => hc (h.mpr hx))]

/-- Rewriting an order through the sweep twice equals rewriting it once:
an order the sweep expires is no longer pending, so the second pass
leaves it alone. -/
theorem expireOne_idem (now : Int) (o : Order) :
    (if isExpirablePending now
          (if isExpirablePending now o then { o with status := "expired" } else o)
        then { (if isExpirablePending now o then { o with status := "expired" } else o)
               with status := "expired" }
        else (if isExpirablePending now o then { o with status := "expired" } else o))
      = (if isExpirablePending now o then { o with status := "expired" } else o) := by
  by_cases hc : isExpirablePending now o = true
  · have hne : isExpirablePending now { o with status := "expired" } = false := by
      apply decide_eq_false
      rintro ⟨h1, -⟩
      simp at h1
    simp [hc, hne]
  · simp [hc]

/-- C7: one run of `OrderService.expire_pending_orders` sets an order's
status to "expired" exactly when the order is pending and older than 24
hours at sweep time, leaves every other order unchanged, is idempotent
(so repeated runs are safe), and on concrete inputs a pending order aged
25 hours is expired while one aged 1 hour is not. -/
theorem C7_expiry_sweep (now : Int) (orders : List Order) :
    (∀ i : Nat, (expirePendingOrders now orders)[i]? =
      (orders[i]?).map (fun o =>
        if o.status = "pending" ∧ now - o.createdAt > 24 * 3600 then
          { o with status := "expired" } else o))
    ∧ expirePendingOrders now (expirePendingOrders now orders)
        = expirePendingOrders now orders
    ∧ expirePendingOrders 0 [{ id := 1, userId := 1, createdAt := -(25 * 3600) }]
        = [{ id := 1, userId := 1, status := "expired", createdAt := -(25 * 3600) }]
    ∧ expirePendingOrders 0 [{ id := 2, userId := 1, createdAt := -3600 }]
        = [{ id := 2, userId := 1, createdAt := -3600 }] := by
  refine ⟨?_, ?_, by decide, by decide⟩
  · intro i
    unfold expirePendingOrders
    rw [List.getElem?_map]
    rcases h : orders[i]? with _ | o
    · rfl
    · simp only [Option.map_some']
      exact congrArg some (expireOne_eq now o)
  · unfold expirePendingOrders
    rw [List.map_map]
    apply List.map_congr_left
    intro o _
    exact expireOne_idem now o

/-- C10: `OrderService.get_order_by_id` is total over arbitrary strings:
it yields an order only when the string parses as that order's id within
the PostgreSQL INTEGER range; a string that does not parse yields `none`;
a parsed id above 2147483647 yields `none`; concrete instances include a
non-numeric string and the first out-of-range id. -/
theorem C10_get_order_by_id_total (orders : List Order) (s : String) :
    (∀ o : Order, get_order_by_id orders s = some o →
        o ∈ orders ∧ pyIntOfString s = some (o.id : Int))
    ∧ (pyIntOfString s = none → get_order_by_id orders s = none)
    ∧ (∀ n : Int, pyIntOfString s = some n → n > 2147483647 →
        get_order_by_id orders s = none)
    ∧ get_order_by_id [{ id := 5, userId := 1 }] "abc" = none
    ∧ get_order_by_id [{ id := 5, userId := 1 }] "2147483648" = none
    ∧ get_order_by_id [{ id := 5, userId := 1 }] "5"
        = some { id := 5, userId := 1 } := by
  refine ⟨?_, ?_, ?_, by decide, by decide, by decide⟩
  · intro o ho
    rcases h : pyIntOfString s with _ | n
    · simp only [get_order_by_id, h] at ho
      exact absurd ho (by simp)
    · simp only [get_order_by_id, h] at ho
      by_cases hgt : n > pgIntegerLimit
      · rw [if_pos hgt] at ho
        exact absurd ho (by simp)
      · rw [if_neg hgt] at ho
        refine ⟨List.mem_of_find?_eq_some ho, ?_⟩
        have hp := List.find?_some ho
        have hid : ((o.id : Int) = n) := of_decide_eq_true hp
        simp [h, hid]
  · intro h
    simp only [get_order_by_id, h]
  · intro n hn hgt
    simp only [get_order_by_id, hn, pgIntegerLimit]
    rw [if_pos hgt]

/-- Closed instance of the C10 theorem at a concrete table and id
strings, discharging its hypotheses. -/
theorem C10_get_order_by_id_total_witness :
    get_order_by_id [{ id := 5, userId := 1 }] "x9" = none ∧
    get_order_by_id [{ id := 5, userId := 1 }] "9999999999" = none := by
  refine ⟨?_, ?_⟩
  · exact (C10_get_order_by_id_total [{ id := 5, userId := 1 }] "x9").2.1 (by decide)
  · exact (C10_get_order_by_id_total [{ id := 5, userId := 1 }] "9999999999").2.2.1
      9999999999 (by decide) (by decide)

/-- Bump behaviour of `log_error` on a one-row table whose row carries
the call's duplicate hash and is unresolved: the row's count is
incremented and its `last_occurrence` set to the call time. -/
theorem logError_bump (e : ErrorLog) (k : ErrorKey) (severity : String)
    (rmr : Bool) (now : Int)
    (hhash : e.duplicateHash = duplicateHashOf k) (hres : e.isResolved = false) :
    logError [e] k severity rmr now
      = [{ e with duplicateCount := e.duplicateCount + 1
                  lastOccurrence := now }] := by
  have hp : (fun x : ErrorLog =>
      decide (x.duplicateHash = duplicateHashOf k ∧ x.isResolved = false)) e
        = true :=
    decide_eq_true ⟨hhash, hres⟩
  have hfind : List.find? (fun x : ErrorLog =>
      decide (x.duplicateHash = duplicateHashOf k ∧ x.isResolved = false)) [e]
        = some e :=
    List.find?_cons_of_pos _ hp
  simp only [logError, hfind, Option.isSome_some, if_true, List.map_cons,
    List.map_nil]
  rw [if_pos (of_decide_eq_true hp)]

/-- C8: logging the same error key n > 0 times (at timestamps t+1 … t+n)
while it stays unresolved yields exactly one `ErrorLog` row, whose
`duplicate_count` equals n and whose `last_occurrence` is the timestamp
of the latest repeat — since this holds after every prefix of the calls,
`last_occurrence` is bumped on each repeat rather than a new row being
inserted. -/
theorem C8_duplicate_collapsing (k : ErrorKey) (severity : String) (t : Int)
    (n : Nat) (hn : 0 < n) :
    ∃ e : ErrorLog,
      logErrorRepeat [] k severity t n = [e]
      ∧ e.duplicateCount = n
      ∧ e.lastOccurrence = t + (n : Int)
      ∧ e.firstOccurrence = t + 1
      ∧ e.duplicateHash = duplicateHashOf k
      ∧ e.isResolved = false := by
  induction n with
  | zero => exact absurd hn (by simp)
  | succ m ih =>
    rcases Nat.eq_zero_or_pos m with hm | hm
    · subst hm
      exact ⟨_, rfl, rfl, rfl, rfl, rfl, rfl⟩
    · obtain ⟨e, heq, hcount, hlast, hfirst, hhash, hres⟩ := ih hm
      refine ⟨{ e with duplicateCount := e.duplicateCount + 1
                       lastOccurrence := t + ((m + 1 : Nat) : Int) },
        ?_, ?_, rfl, ?_, ?_, ?_⟩
      · show logError (logErrorRepeat [] k severity t m) k severity false
            (t + ((m + 1 : Nat) : Int)) = _
        rw [heq, logError_bump e k severity false _ hhash hres]
      · simpa using hcount
      · simpa using hfirst
      · simpa using hhash
      · simpa using hres

/-- Closed instance of the C8 theorem: five identical unresolved errors
collapse into one row with `duplicate_count = 5`. -/
theorem C8_duplicate_collapsing_witness :
    ∃ e : ErrorLog,
      logErrorRepeat [] { errorType := "G2A_KEY_RETRIEVAL_FAILURE"
                          errorMessage := "timeout"
                          sourceSystem := some "g2a" } "error" 0 5 = [e]
      ∧ e.duplicateCount = 5
      ∧ e.lastOccurrence = 0 + (5 : Int)
      ∧ e.firstOccurrence = 0 + 1
      ∧ e.duplicateHash = duplicateHashOf { errorType := "G2A_KEY_RETRIEVAL_FAILURE"
                                            errorMessage := "timeout"
                                            sourceSystem := some "g2a" }
      ∧ e.isResolved = false :=
  C8_duplicate_collapsing _ "error" 0 5 (by decide)

/-- C6 counterexample: two enqueues with the same dedup key
`(email_type, order id, recipient)` leave two pending rows — the second
does not collapse into the first, refuting the at-most-one-pending-row
invariant at this concrete input. -/
theorem C6_counterexample :
    pendingRowsForKey
      (queueEmail
        (queueEmail [] "u@x" "Your keys" (some "license_key") (some "1") 1 3)
        "u@x" "Your keys" (some "license_key") (some "1") 1 3)
      (some "license_key") (some "1") "u@x" = 2 := by decide

/-- C6 amended: `queue_email` performs no deduplication — every call
appends one fresh pending row, so each enqueue increases the number of
pending rows under its own dedup key by exactly one; duplicate
suppression exists only in callers such as the webhook handler, which
skips mailing entirely when any `email_queue` row for the order exists. -/
theorem C6_enqueue_no_dedup (q : List EmailQueue) (toEmail subject : String)
    (ty : Option String) (oid : Option String) (p m : Nat) :
    pendingRowsForKey (queueEmail q toEmail subject ty oid p m) ty oid toEmail
      = pendingRowsForKey q ty oid toEmail + 1
    ∧ (queueEmail q toEmail subject ty oid p m).length = q.length + 1 := by
  constructor
  · unfold pendingRowsForKey queueEmail
    rw [List.filter_append]
    simp [emailDedupKeyMatches]
  · simp [queueEmail]

/-- C9 counterexample: deleting order 1 removes both retry-log rows that
reference it (one via the order, one via its item), refuting the claim
that every `RetryLogEntry` referencing the order remains unchanged. -/
theorem C9_counterexample :
    (deleteOrder c9db 1).retryLogs = [] ∧ c9db.retryLogs.length = 2 := by decide

/-- C9 amended: deleting an order cascade-deletes its `OrderItem` rows
AND every `RetryLog` row referencing the order or one of its items
(both relationships carry `cascade="all, delete-orphan"`); only the
`email_queue` table, which holds a plain string reference, is left
unchanged. -/
theorem C9_cascade_scope (db : Database) (oid : Nat) :
    (deleteOrder db oid).emailQueue = db.emailQueue
    ∧ (∀ o ∈ (deleteOrder db oid).orders, o.id ≠ oid)
    ∧ (∀ it ∈ (deleteOrder db oid).orderItems, it.orderId ≠ oid)
    ∧ (∀ r ∈ db.retryLogs,
        (r ∈ (deleteOrder db oid).retryLogs ↔
          (r.orderId ≠ some oid ∧
            ∀ it ∈ db.orderItems, it.orderId = oid → r.orderItemId ≠ some it.id))) := by
  refine ⟨rfl, ?_, ?_, ?_⟩
  · intro o ho
    have := (List.mem_filter.mp ho).2
    exact of_decide_eq_true this
  · intro it hit
    have := (List.mem_filter.mp hit).2
    exact of_decide_eq_true this
  · intro r hr
    constructor
    · intro h
      have h2 := (List.mem_filter.mp h).2
      have h3 : retryLogCascades db oid r = false := by
        cases hb : retryLogCascades db oid r
        · rfl
        · rw [hb] at h2
          exact absurd h2 (by decide)
      unfold retryLogCascades at h3
      have h4 := of_decide_eq_false h3
      push_neg at h4
      obtain ⟨h5, h6⟩ := h4
      refine ⟨h5, ?_⟩
      intro it hit hoid hcontra
      apply h6
      rw [List.any_eq_true]
      exact ⟨it, List.mem_filter.mpr ⟨hit, decide_eq_true hoid⟩,
        decide_eq_true hcontra⟩
    · rintro ⟨h1, h2⟩
      show r ∈ (deleteOrder db oid).retryLogs
      unfold deleteOrder
      rw [List.mem_filter]
      refine ⟨hr, ?_⟩
      apply decide_eq_true
      intro hb
      have hb2 := of_decide_eq_true (show decide (r.orderId = some oid ∨
          ((db.orderItems.filter (fun it => it.orderId = oid)).any
            (fun it => r.orderItemId = some it.id)) = true) = true from hb)
      rcases hb2 with hc | hany
      · exact h1 hc
      · rw [List.any_eq_true] at hany
        obtain ⟨it, hitmem, hit2⟩ := hany
        obtain ⟨hitdb, hoid⟩ := List.mem_filter.mp hitmem
        exact h2 it hitdb (of_decide_eq_true hoid) (of_decide_eq_true hit2)

/-- Closed instance of the C9 amended theorem at the concrete database:
the email queue survives the deletion and the surviving tables exclude
order 1. -/
theorem C9_cascade_scope_witness :
    (deleteOrder c9db 1).emailQueue = c9db.emailQueue :=
  (C9_cascade_scope c9db 1).1

/-- C1 counterexample: `get_multi_item_license_keys` mutates the item
from "pending_key" to "complete" and commits, but never invokes the
order-status recompute — afterwards every item of the order is complete
while the order's status is still "paid", so the claimed
recompute-after-every-item-mutation (with its iff) fails at this input. -/
theorem C1_counterexample :
    c1Item.status ≠ "complete"
    ∧ ((getMultiItemLicenseKeys c1Start).orderItems.all
        (fun it => it.status = "complete")) = true
    ∧ (getMultiItemLicenseKeys c1Start).order.status = "paid"
    ∧ (getMultiItemLicenseKeys c1Start).statusAssignments = [] := by decide

/-- C1 amended: the recompute function
`_update_order_status_if_all_items_complete` itself, whenever invoked on
an order with at least one item, establishes status = "complete" iff all
items are complete, and demotes a "complete" order to "paid" when some
item is not complete; the webhook flow invokes it after each item
completion, but the on-demand retrieval path mutates items without it. -/
theorem C1_recompute_iff (status : String) (sts : List String)
    (h : sts ≠ []) :
    (updateOrderStatusIfAllItemsComplete status sts = "complete"
      ↔ sts.all (fun s => s = "complete") = true)
    ∧ (status = "complete" → sts.all (fun s => s = "complete") = false →
        updateOrderStatusIfAllItemsComplete status sts = "paid") := by
  unfold updateOrderStatusIfAllItemsComplete
  rw [if_neg h]
  by_cases hall : sts.all (fun s => s = "complete") = true
  · by_cases hst : status = "complete"
    · simp [hall, hst]
    · simp [hall, hst]
  · have hall' : sts.all (fun s => s = "complete") = false :=
      Bool.eq_false_iff.mpr hall
    by_cases hst : status = "complete"
    · simp [hall', hst]
    · simp [hall', hst]

/-- Closed instance of the C1 amended theorem: a "complete" order with a
re-keyed (non-complete) item regresses to "paid". -/
theorem C1_recompute_iff_witness :
    updateOrderStatusIfAllItemsComplete "complete" ["pending_key", "complete"]
      = "paid" :=
  (C1_recompute_iff "complete" ["pending_key", "complete"] (by decide)).2
    rfl (by decide)

/-- C2 counterexample: processing the same succeeded event twice yields
TWO transitions of the order into "paid", not one — the first processing
ends with the order "complete", and the replay unconditionally re-marks
it "paid", demoting it. -/
theorem C2_counterexample :
    countPaidEntries "pending" c2Run2.statusAssignments = 2
    ∧ c2Run1.order.status = "complete"
    ∧ c2Run2.order.status = "paid" := by decide

/-- C2 amended: replaying a succeeded event for an order that is already
paid and fully keyed issues no further provider calls and queues no
further notification (each dedup key keeps at most its one queued row),
but the handler unconditionally re-assigns `status = "paid"`, so the
replay ends with the order in "paid" even when it was "complete". -/
theorem C2_replay_no_side_effects (st : FlowState) (orderId : Nat)
    (hid : st.order.id = orderId)
    (hpaid : st.order.paymentStatus = "paid")
    (hne : st.orderItems ≠ [])
    (hkeyed : ∀ it ∈ st.orderItems,
      truthyStr it.g2aOrderId = true ∧ truthyStr it.deliveredKey = true
        ∧ it.status = "complete")
    (hmail : (st.emails.filter
        (fun e => e.orderId = some (toString st.order.id))).length ≠ 0) :
    (handlePaymentSuccess st orderId).2 = true
    ∧ (handlePaymentSuccess st orderId).1.calls = st.calls
    ∧ (handlePaymentSuccess st orderId).1.emails = st.emails
    ∧ (handlePaymentSuccess st orderId).1.order.status = "paid" := by
  subst hid
  have hneeds : (st.orderItems.any (fun it =>
      (¬ truthyStr it.g2aOrderId ∧ it.status ≠ "complete") ∨
      (truthyStr it.g2aOrderId ∧ ¬ truthyStr it.deliveredKey
        ∧ it.status ≠ "complete"))) = false := by
    rw [List.any_eq_false]
    intro it hit
    simp only [decide_eq_true_eq]
    rintro (⟨-, hs⟩ | ⟨-, -, hs⟩) <;> exact hs (hkeyed it hit).2.2
  simp only [handlePaymentSuccess]
  rw [if_neg (show ¬ st.order.id ≠ st.order.id from fun hx => hx rfl)]
  simp only [hpaid, if_pos rfl, if_pos hne, hneeds]
  simp only [decide_not, decide_eq_true_eq]
  simp [FlowState.setOrderStatus, FlowState.orderItems, hmail]

/-- Closed instance of the C2 amended theorem at the state reached after
the first processing of the scenario event. -/
theorem C2_replay_no_side_effects_witness :
    (handlePaymentSuccess c2Run1 2).1.calls = c2Run1.calls
    ∧ (handlePaymentSuccess c2Run1 2).1.order.status = "paid" := by
  have h := C2_replay_no_side_effects c2Run1 2 (by decide) (by decide)
    (by decide) (by decide) (by decide)
  exact ⟨h.2.1, h.2.2.2⟩

/-- C3: a run of `retry_license_key_retrieval_for_item` that sees
not-ready on all `max_attempts = 5` attempts ends with the item "failed"
after five fetches, but the guarded `if not retry_log:` creation leaves
exactly ONE RetryLog row (updated to "failed"/"MAX_RETRIES_EXCEEDED"),
not the five per-attempt rows the specification requires. -/
theorem C3_retry_exhaustion_single_log :
    (retryLicenseKeyRetrievalForItem c3Start).1.item.status = "failed"
    ∧ (retryLicenseKeyRetrievalForItem c3Start).1.fetchCalls = 5
    ∧ (retryLicenseKeyRetrievalForItem c3Start).1.retryLogs.length = 1
    ∧ ((retryLicenseKeyRetrievalForItem c3Start).1.retryLogs.map
        (fun r => r.status)) = ["failed"]
    ∧ ((retryLicenseKeyRetrievalForItem c3Start).1.retryLogs.map
        (fun r => r.errorCode)) = [some "MAX_RETRIES_EXCEEDED"]
    ∧ (retryLicenseKeyRetrievalForItem c3Start).2 = false := by decide

/-- C4 counterexample: on an unknown provider code the webhook flow
marks the item "key_error" — not "failed" — issues only the single fetch
(so nothing is retried), leaves the order status untouched and writes
nothing anywhere else; no critical error-log entry exists in this path. -/
theorem C4_counterexample :
    ((processItemWebhook c4Start 40).items.map (fun it => it.status))
        = ["key_error"]
    ∧ (processItemWebhook c4Start 40).calls = [ProviderCall.fetchKey "G4"]
    ∧ (processItemWebhook c4Start 40).statusAssignments = []
    ∧ "key_error" ≠ "failed" := by decide

/-- C4 amended: in the webhook multi-item flow a key-fetch error code
outside the classified set {ORD03, ORD01, ORD04, API_UNAVAILABLE,
API_ERROR, UNKNOWN_RESPONSE} marks the item "key_error" and changes
nothing else — no provider call, no email, no order-status assignment,
and (as the branch writes only the item row) no error-log entry and no
scheduled retry. -/
theorem C4_unknown_code_branch (st : FlowState) (item : OrderItem)
    (kr : KeyResponse) (ec : String)
    (h1 : ec ≠ "ORD03") (h2 : ec ≠ "ORD01") (h3 : ec ≠ "ORD04")
    (h4 : ec ≠ "API_UNAVAILABLE") (h5 : ec ≠ "API_ERROR")
    (h6 : ec ≠ "UNKNOWN_RESPONSE") :
    handleWebhookKeyError st item kr ec
      = st.setItem { item with status := "key_error" } := by
  unfold handleWebhookKeyError
  rw [if_neg h1, if_neg h2, if_neg h3,
    if_neg (show ¬ (ec = "API_UNAVAILABLE" ∨ ec = "API_ERROR"
      ∨ ec = "UNKNOWN_RESPONSE") from
        fun hx => hx.elim h4 (fun hy => hy.elim h5 h6))]

/-- Closed instance of the C4 amended theorem at the concrete scenario
response. -/
theorem C4_unknown_code_branch_witness :
    handleWebhookKeyError c4Start c4Item { error := some "E999" } "E999"
      = c4Start.setItem { c4Item with status := "key_error" } :=
  C4_unknown_code_branch c4Start c4Item { error := some "E999" } "E999"
    (by decide) (by decide) (by decide) (by decide) (by decide) (by decide)

/-- C5 counterexample: in the on-demand retrieval path an "ORD04"
outcome stores the sentinel "KEY_ALREADY_DELIVERED_ORD04" immediately —
the call log shows only the one original fetch, so no fresh re-query was
made before falling back to the sentinel, contradicting the claimed
exactly-one re-query. -/
theorem C5_counterexample :
    ((getMultiItemLicenseKeys c5Start).items.map (fun it => it.deliveredKey))
        = [some "KEY_ALREADY_DELIVERED_ORD04"]
    ∧ (getMultiItemLicenseKeys c5Start).calls = [ProviderCall.fetchKey "G5"]
    ∧ ((getMultiItemLicenseKeys c5Start).items.map (fun it => it.status))
        = ["complete"] := by decide

/-- Frame fact: the order-status recompute touches only the order status
and the assignment trace. -/
theorem recomputeOrderStatus_frame (st : FlowState) :
    (recomputeOrderStatus st).calls = st.calls
    ∧ (recomputeOrderStatus st).items = st.items
    ∧ (recomputeOrderStatus st).emails = st.emails
    ∧ (recomputeOrderStatus st).script = st.script := by
  simp only [recomputeOrderStatus, FlowState.setOrderStatus]
  split
  · exact ⟨rfl, rfl, rfl, rfl⟩
  · split
    · exact ⟨rfl, rfl, rfl, rfl⟩
    · split
      · exact ⟨rfl, rfl, rfl, rfl⟩
      · exact ⟨rfl, rfl, rfl, rfl⟩

/-- C5 amended: in the WEBHOOK flow the "ORD04" branch behaves as the
claim says — with no truthy key in the ORD04 response it issues exactly
one fresh re-query and stores the fresh response's `key` field when the
field is present, the sentinel otherwise; with a truthy key in the ORD04
response it stores that key with no extra call; the item becomes
"complete" either way. (The on-demand path, by contrast, never
re-queries — see the counterexample.) -/
theorem C5_webhook_ord04 (st : FlowState) (item : OrderItem)
    (kr : KeyResponse) :
    (truthyStr kr.key = false →
      (handleWebhookKeyError st item kr "ORD04").calls
          = st.calls ++ [ProviderCall.fetchKey (item.g2aOrderId.getD "")]
      ∧ (handleWebhookKeyError st item kr "ORD04").items
          = st.items.map (fun j => if j.id = item.id then
              { item with
                deliveredKey := some ((((st.script.keyResponses.head?.getD
                    none)).bind KeyResponse.key).getD
                    "KEY_ALREADY_DELIVERED_ORD04")
                status := "complete" }
              else j))
    ∧ (∀ k : String, kr.key = some k → k ≠ "" →
      (handleWebhookKeyError st item kr "ORD04").calls = st.calls
      ∧ (handleWebhookKeyError st item kr "ORD04").items
          = st.items.map (fun j => if j.id = item.id then
              { item with deliveredKey := some k, status := "complete" }
              else j)) := by
  constructor
  · intro hk
    rcases hkey : kr.key with _ | k
    · rcases hscript : st.script.keyResponses with _ | ⟨r, rest⟩
      · simp only [handleWebhookKeyError, hkey, FlowState.popKey, hscript]
        rw [if_neg (show ¬("ORD04" = "ORD03") by decide),
          if_neg (show ¬("ORD04" = "ORD01") by decide)]
        simp only [if_true]
        constructor
        · rw [(recomputeOrderStatus_frame _).1]
          rfl
        · rw [(recomputeOrderStatus_frame _).2.1]
          simp [FlowState.setItem, Option.bind]
      · rcases r with _ | fr
        · simp only [handleWebhookKeyError, hkey, FlowState.popKey, hscript]
          rw [if_neg (show ¬("ORD04" = "ORD03") by decide),
            if_neg (show ¬("ORD04" = "ORD01") by decide)]
          simp only [if_true]
          constructor
          · rw [(recomputeOrderStatus_frame _).1]
            rfl
          · rw [(recomputeOrderStatus_frame _).2.1]
            simp [FlowState.setItem, Option.bind]
        · simp only [handleWebhookKeyError, hkey, FlowState.popKey, hscript]
          rw [if_neg (show ¬("ORD04" = "ORD03") by decide),
            if_neg (show ¬("ORD04" = "ORD01") by decide)]
          simp only [if_true]
          constructor
          · rw [(recomputeOrderStatus_frame _).1]
            rfl
          · rw [(recomputeOrderStatus_frame _).2.1]
            simp [FlowState.setItem, Option.bind]
    · have hke : k = "" := by
        rw [hkey] at hk
        simpa [truthyStr] using hk
      subst hke
      rcases hscript : st.script.keyResponses with _ | ⟨r, rest⟩
      · simp only [handleWebhookKeyError, hkey, FlowState.popKey, hscript]
        rw [if_neg (show ¬("ORD04" = "ORD03") by decide),
          if_neg (show ¬("ORD04" = "ORD01") by decide)]
        simp only [if_true]
        constructor
        · rw [(recomputeOrderStatus_frame _).1]
          rfl
        · rw [(recomputeOrderStatus_frame _).2.1]
          simp [FlowState.setItem, Option.bind]
      · rcases r with _ | fr
        · simp only [handleWebhookKeyError, hkey, FlowState.popKey, hscript]
          rw [if_neg (show ¬("ORD04" = "ORD03") by decide),
            if_neg (show ¬("ORD04" = "ORD01") by decide)]
          simp only [if_true]
          constructor
          · rw [(recomputeOrderStatus_frame _).1]
            rfl
          · rw [(recomputeOrderStatus_frame _).2.1]
            simp [FlowState.setItem, Option.bind]
        · simp only [handleWebhookKeyError, hkey, FlowState.popKey, hscript]
          rw [if_neg (show ¬("ORD04" = "ORD03") by decide),
            if_neg (show ¬("ORD04" = "ORD01") by decide)]
          simp only [if_true]
          constructor
          · rw [(recomputeOrderStatus_frame _).1]
            rfl
          · rw [(recomputeOrderStatus_frame _).2.1]
            simp [FlowState.setItem, Option.bind]
  · intro k hkey hkne
    unfold handleWebhookKeyError
    rw [if_neg (by decide), if_neg (by decide), if_pos rfl]
    rw [hkey]
    simp only [if_neg hkne]
    constructor
    · exact (recomputeOrderStatus_frame _).1
    · rw [(recomputeOrderStatus_frame _).2.1]
      simp [FlowState.setItem]

/-- Closed instance of the C5 amended theorem: an ORD04 response without
a key payload triggers exactly one fresh re-query in the webhook flow. -/
theorem C5_webhook_ord04_witness :
    (handleWebhookKeyError c5Start c5Item { error := some "ORD04" }
        "ORD04").calls
      = c5Start.calls ++ [ProviderCall.fetchKey (c5Item.g2aOrderId.getD "")] :=
  ((C5_webhook_ord04 c5Start c5Item { error := some "ORD04" }).1
    (by decide)).1

end Lootamo
